import Mathlib

/-!
Shallow embedding of the database-backup orchestration pipeline of the
savedb repository, together with theorems settling the frozen claims
about it.

Source files embedded here:
- `src/modules/databases/postgres` (shipped as `src/unnamed/part_008`):
  `executePgDump`, `backupPostgresDatabase`, `testDatabaseConnection`,
  `checkDatabaseSize`, `backupAndUploadDatabase`;
- the database-backup API router (`src/unnamed/part_003`);
- the browser streaming client `public/js/backup-client.js`
  (`src/unnamed/part_000`);
- `src/lib/cloud-storage/storage-upload.ts`.

Strings manipulated by the wire codec are modelled as `List Char`;
higher-level messages stay `String`.  Machine integers in the sources are
JavaScript numbers used only in ranges where they behave exactly, so they
are modelled as `Nat` (durations, sizes, counters) or `Int` (exit codes).
-/

namespace SaveDb

/-! ## Timeout budget (src/unnamed/part_008, lines 400-404)

The source computes
`sizeInMB = sizeBytes / (1024*1024)` and then
`estimatedMinutes = Math.min(45, Math.max(20, 20 + Math.floor(sizeInMB / 100)))`.
`Nat` division is floored, and flooring after dividing by `1024*1024` and
then by `100` agrees with the single floor the source takes (proved below
in `estimatedMinutes_eq_floor`). -/

/-- Adaptive timeout budget in minutes, from the size estimate in bytes. -/
def estimatedMinutes (sizeBytes : ℕ) : ℕ :=
  min 45 (max 20 (20 + sizeBytes / (1024 * 1024) / 100))

/-- The timeout used by both race arms, in milliseconds
(`timeoutMs = estimatedMinutes * 60 * 1000`). -/
def timeoutMs (sizeBytes : ℕ) : ℕ :=
  estimatedMinutes sizeBytes * 60 * 1000

/-- The `Nat` double division agrees with the source's single real-number
floor `Math.floor((sizeBytes / (1024*1024)) / 100)`. -/
theorem estimatedMinutes_eq_floor (sizeBytes : ℕ) :
    (estimatedMinutes sizeBytes : ℤ) =
      min 45 (max 20 (20 + ⌊((sizeBytes : ℚ) / (1024 * 1024)) / 100⌋)) := by
  have hfloor : ⌊((sizeBytes : ℚ) / (1024 * 1024)) / 100⌋
      = (sizeBytes / (1024 * 1024) / 100 : ℕ) := by
    rw [div_div]
    rw [show ((1024 * 1024 : ℚ) * 100) = ((1024 * 1024 * 100 : ℕ) : ℚ) by norm_num]
    have hnonneg : (0 : ℚ) ≤ (sizeBytes : ℚ) / ((1024 * 1024 * 100 : ℕ) : ℚ) :=
      div_nonneg (Nat.cast_nonneg _) (Nat.cast_nonneg _)
    rw [← Int.natCast_floor_eq_floor hnonneg, Nat.floor_div_eq_div,
      Nat.div_div_eq_div_mul]
  rw [hfloor]
  have h20 : ((20 : ℕ) : ℤ) ≤ 20 + (sizeBytes / (1024 * 1024) / 100 : ℕ) := by
    push_cast
    omega
  simp only [estimatedMinutes]
  push_cast
  omega

/-- Claim C1: the timeout budget function is pure and, for every
`sizeBytes`, returns `clamp(20 + floor(sizeMB / 100), 20, 45)` minutes
with `sizeMB = sizeBytes / (1024*1024)`; it is monotone non-decreasing,
always lies in `[20, 45]`, and `budget 0 = 20`,
`budget (250 MB) = 22`, `budget (3000 MB) = 45`. -/
theorem estimatedMinutes_spec :
    (∀ a b : ℕ, a ≤ b → estimatedMinutes a ≤ estimatedMinutes b) ∧
    (∀ sizeBytes : ℕ,
      20 ≤ estimatedMinutes sizeBytes ∧ estimatedMinutes sizeBytes ≤ 45) ∧
    estimatedMinutes 0 = 20 ∧
    estimatedMinutes (250 * 1024 * 1024) = 22 ∧
    estimatedMinutes (3000 * 1024 * 1024) = 45 := by
  refine ⟨?_, ?_, by decide, by decide, by decide⟩
  · intro a b hab
    unfold estimatedMinutes
    have h1 : a / (1024 * 1024) / 100 ≤ b / (1024 * 1024) / 100 :=
      Nat.div_le_div_right (Nat.div_le_div_right hab)
    exact min_le_min le_rfl (max_le_max le_rfl (Nat.add_le_add_left h1 20))
  · intro sizeBytes
    exact ⟨le_min (by norm_num) (le_max_left _ _), min_le_left _ _⟩

/-- Witness for `estimatedMinutes_spec`: instantiates the monotonicity
hypothesis at the concrete pair 0 ≤ 250 MB. -/
theorem estimatedMinutes_spec_witness :
    estimatedMinutes 0 ≤ estimatedMinutes (250 * 1024 * 1024) :=
  estimatedMinutes_spec.1 0 (250 * 1024 * 1024) (Nat.zero_le _)

/-! ## Dump executor (src/unnamed/part_008, lines 48-144)

`executePgDump` runs `for (attempt = 0; attempt <= maxRetries; attempt++)`,
waiting `retryDelayMs` at the start of every attempt after the first.
Each attempt either completes with an execa result (`reject: false`, so a
non-zero exit code makes the source throw a fresh
`new Error("pg_dump failed with exit code <ec>: <stderr>")`, an object
that carries no `code` and no `stderr` property), or throws an error
object.  The catch block classifies the error, rethrows fatal ones, and
otherwise retries until `attempt === maxRetries`.  The external process
is abstracted as an oracle from the attempt index to that attempt's
outcome. -/

/-- JavaScript `error.code` values: a string (such as "ENOENT") or a
number (such as an exit code). -/
inductive JsCode
  | str (s : String)
  | num (n : Int)
deriving DecidableEq, Repr

/-- The fields of a thrown JavaScript error object that the catch block
of `executePgDump` inspects. -/
structure JsError where
  name : String
  message : String
  stderr : Option String
  code : Option JsCode
deriving DecidableEq, Repr

/-- Substring test on character lists (JavaScript `String.includes`). -/
def listContains : List Char → List Char → Bool
  | [], pat => pat.isEmpty
  | c :: rest, pat => pat.isPrefixOf (c :: rest) || listContains rest pat

/-- Substring test on strings (JavaScript `String.includes`). -/
def strContains (s pat : String) : Bool :=
  listContains s.toList pat.toList

/-- JavaScript truthiness of an `error.code` value: absent and `0` and
the empty string are falsy. -/
def codeTruthy : Option JsCode → Bool
  | none => false
  | some (JsCode.str s) => !s.isEmpty
  | some (JsCode.num n) => n != 0

/-- The error synthesized by `executePgDump` when the completed process
has a non-zero exit code (line 108): a bare `Error`, which carries
neither a `code` nor a `stderr` property. -/
def mkExitError (exitCode : Int) (stderr : String) : JsError :=
  { name := "Error"
    message := "pg_dump failed with exit code " ++ toString exitCode ++ ": " ++ stderr
    stderr := none
    code := none }

/-- Result of classifying a caught error in `executePgDump`. -/
inductive CatchAction
  | retryable
  | fatal (thrown : JsError)
deriving DecidableEq, Repr

/-- Classification chain of the catch block (lines 117-133): abort/timeout
and connection-loss stderr are retryable; `code === "ENOENT"` rethrows a
fresh tool-not-found error; a truthy `code` other than `1` rethrows the
error itself; everything else falls through and is retried. -/
def classifyCatch (pgDumpPath : String) (e : JsError) : CatchAction :=
  if e.name = "AbortError" ∨ strContains e.message "timeout" = true then
    .retryable
  else if (match e.stderr with
      | some s => !s.isEmpty &&
          (strContains s "connection to server was lost" ||
            strContains s "could not connect to server")
      | none => false) = true then
    .retryable
  else if e.code = some (JsCode.str "ENOENT") then
    .fatal
      { name := "Error"
        message := "pg_dump executable not found at " ++ pgDumpPath
        stderr := none
        code := none }
  else if codeTruthy e.code = true ∧ e.code ≠ some (JsCode.num 1) then
    .fatal e
  else
    .retryable

/-- What the catch block does at a given attempt: rethrow (halting the
loop) or fall through to the next attempt. -/
inductive CatchResult
  | halt (thrown : JsError)
  | again (lastErr : JsError)
deriving DecidableEq, Repr

/-- Catch block of `executePgDump` (lines 112-139): classify, rethrow
fatal errors, and rethrow retryable ones only on the last attempt. -/
def catchBlock (pgDumpPath : String) (maxRetries attempt : Nat)
    (e : JsError) : CatchResult :=
  match classifyCatch pgDumpPath e with
  | .fatal e' => .halt e'
  | .retryable => if attempt = maxRetries then .halt e else .again e

/-- One attempt's outcome, as produced by the execa invocation: either a
completed process (with `reject: false` the promise resolves even on
failure) or a thrown error object. -/
inductive AttemptOutcome
  | completed (exitCode : Int) (stdout : String) (stderr : String)
  | threw (e : JsError)

/-- Fallback error of the unreachable line 143
(`throw lastError || new Error(...)`). -/
def unknownExecError : JsError :=
  { name := "Error"
    message := "Unknown error during pg_dump execution"
    stderr := none
    code := none }

/-- Decidable equality for `Except`, needed to evaluate outcomes in
witnesses. -/
instance {ε α : Type} [DecidableEq ε] [DecidableEq α] :
    DecidableEq (Except ε α)
  | .error a, .error b =>
      if h : a = b then .isTrue (by rw [h])
      else .isFalse (by intro hc; cases hc; exact h rfl)
  | .error _, .ok _ => .isFalse (by intro hc; cases hc)
  | .ok _, .error _ => .isFalse (by intro hc; cases hc)
  | .ok a, .ok b =>
      if h : a = b then .isTrue (by rw [h])
      else .isFalse (by intro hc; cases hc; exact h rfl)

/-- Observable outcome of a whole `executePgDump` call: the value
returned or error thrown, the number of attempts started, and the total
time spent in retry delays. -/
structure ExecOutcome where
  result : Except JsError (String × String)
  attempts : Nat
  delayTotalMs : Nat
deriving DecidableEq, Repr

/-- Retry loop of `executePgDump` (lines 65-140).  `fuel` counts the
attempts still allowed (`maxRetries + 1 - attempt`); running out of fuel
is the post-loop line 143. -/
def execLoop (oracle : Nat → AttemptOutcome) (pgDumpPath : String)
    (maxRetries retryDelayMs : Nat) :
    Nat → Nat → Nat → Option JsError → ExecOutcome
  | 0, attempt, delayAcc, lastErr =>
      { result := .error (lastErr.getD unknownExecError)
        attempts := attempt
        delayTotalMs := delayAcc }
  | fuel + 1, attempt, delayAcc, _lastErr =>
      let delayAcc' := delayAcc + (if 0 < attempt then retryDelayMs else 0)
      let handle := fun (e : JsError) =>
        match catchBlock pgDumpPath maxRetries attempt e with
        | .halt e' =>
            { result := .error e'
              attempts := attempt + 1
              delayTotalMs := delayAcc' }
        | .again e' =>
            execLoop oracle pgDumpPath maxRetries retryDelayMs fuel
              (attempt + 1) delayAcc' (some e')
      match oracle attempt with
      | .completed ec out err =>
          if ec = 0 then
            { result := .ok (out, err)
              attempts := attempt + 1
              delayTotalMs := delayAcc' }
          else
            handle (mkExitError ec err)
      | .threw e => handle e

/-- The whole `executePgDump` call, starting at attempt 0.  The source
defaults are `maxRetries = 2`, `retryDelayMs = 5000`. -/
def executePgDump (pgDumpPath : String) (oracle : Nat → AttemptOutcome)
    (maxRetries retryDelayMs : Nat) : ExecOutcome :=
  execLoop oracle pgDumpPath maxRetries retryDelayMs (maxRetries + 1) 0 0 none

theorem execLoop_attempts_le (oracle : Nat → AttemptOutcome)
    (pgDumpPath : String) (maxRetries retryDelayMs : Nat) :
    ∀ (fuel attempt delayAcc : Nat) (lastErr : Option JsError),
      (execLoop oracle pgDumpPath maxRetries retryDelayMs fuel attempt
        delayAcc lastErr).attempts ≤ attempt + fuel := by
  intro fuel
  induction fuel with
  | zero => intro attempt delayAcc lastErr; simp [execLoop]
  | succ n ih =>
      intro attempt delayAcc _lastErr
      simp only [execLoop]
      cases horacle : oracle attempt with
      | completed ec out err =>
          by_cases hec : ec = 0
          · simp [hec]
          · simp only [hec, if_false]
            cases hcb : catchBlock pgDumpPath maxRetries attempt
                (mkExitError ec err) with
            | halt e' => simp [hcb]
            | again e' =>
                simp only [hcb]
                exact le_trans (ih (attempt + 1) _ (some e')) (by omega)
      | threw e =>
          cases hcb : catchBlock pgDumpPath maxRetries attempt e with
          | halt e' => simp [hcb]
          | again e' =>
              simp only [hcb]
              exact le_trans (ih (attempt + 1) _ (some e')) (by omega)

/-- Simulated execa error with a connection-loss stderr, as used by the
spec's retry scenario. -/
def connLossError : JsError :=
  { name := "Error"
    message := "Command failed with exit code 1"
    stderr := some "pg_dump: error: connection to server was lost"
    code := some (JsCode.num 1) }

/-- Simulated spawn failure for a missing executable: a JavaScript error
whose `code` property is the string "ENOENT". -/
def enoentError : JsError :=
  { name := "Error"
    message := "spawn pg_dump ENOENT"
    stderr := none
    code := some (JsCode.str "ENOENT") }

/-- Claim C4: the dump executor makes at most 3 attempts in total with a
fixed 5-second delay before each retry; a simulated connection-loss
stderr is retried for the full 2-retry budget (3 attempts, 2 delays of
5000 ms); a simulated ENOENT makes exactly 1 attempt with no delay; and
the catch block's decision is the same at every non-final attempt,
independent of which attempt failed. -/
theorem executePgDump_retry_spec :
    (∀ (pgDumpPath : String) (oracle : Nat → AttemptOutcome),
      (executePgDump pgDumpPath oracle 2 5000).attempts ≤ 3) ∧
    executePgDump "/usr/bin/pg_dump" (fun _ => .threw connLossError) 2 5000 =
      { result := .error connLossError
        attempts := 3
        delayTotalMs := 10000 } ∧
    executePgDump "/usr/bin/pg_dump" (fun _ => .threw enoentError) 2 5000 =
      { result := .error
          { name := "Error"
            message := "pg_dump executable not found at /usr/bin/pg_dump"
            stderr := none
            code := none }
        attempts := 1
        delayTotalMs := 0 } ∧
    (∀ (pgDumpPath : String) (e : JsError) (i j : Nat), i < 2 → j < 2 →
      catchBlock pgDumpPath 2 i e = catchBlock pgDumpPath 2 j e) := by
  refine ⟨?_, by decide, by decide, ?_⟩
  · intro pgDumpPath oracle
    exact execLoop_attempts_le oracle pgDumpPath 2 5000 3 0 0 none
  · intro pgDumpPath e i j hi hj
    unfold catchBlock
    cases classifyCatch pgDumpPath e with
    | fatal e' => rfl
    | retryable => rw [if_neg (by omega), if_neg (by omega)]

/-- Witness for `executePgDump_retry_spec`: applies the
attempt-independence conjunct at attempts 0 and 1. -/
theorem executePgDump_retry_spec_witness :
    catchBlock "/usr/bin/pg_dump" 2 0 connLossError =
      catchBlock "/usr/bin/pg_dump" 2 1 connLossError :=
  executePgDump_retry_spec.2.2.2 "/usr/bin/pg_dump" connLossError 0 1
    (by decide) (by decide)

/-- Claim C6 (refuted by evaluation): an invocation whose process exits
with code 2 — neither 0 nor 1 — is supposed to be fatal with no retry,
but the executor makes all 3 attempts.  The `new Error` thrown on a
non-zero exit carries no `code` property, so the catch block's
`error.code && error.code !== 1` test never fires for it and the error
falls through to the retryable default. -/
theorem executePgDump_exit_code_two_retried :
    executePgDump "/usr/bin/pg_dump"
        (fun _ => .completed 2 "" "pg_dump: permission denied") 2 5000 =
      { result := .error (mkExitError 2 "pg_dump: permission denied")
        attempts := 3
        delayTotalMs := 10000 } ∧
    classifyCatch "/usr/bin/pg_dump" (mkExitError 2 "pg_dump: permission denied") =
      CatchAction.retryable := by
  constructor <;> decide

/-! ## Artifact filename (src/unnamed/part_008, lines 167-177)

`backupPostgresDatabase` builds
`timestamp = new Date().toISOString().replace(/[-:]/g, "").split(".")[0]`,
`cleanFileName = outputName.replace(/[/\\]/g, "-")`,
`sqlFileName = cleanFileName.endsWith(".sql") ? cleanFileName : cleanFileName + ".sql"`,
and the artifact name `backup-<timestamp>-<sqlFileName>`.  The current
UTC time is a parameter of the model; `toISOString` is modelled for the
four-digit-year range it produces for any real clock. -/

/-- A UTC instant, broken into the fields `toISOString` prints. -/
structure UtcDate where
  year : Nat
  month : Nat
  day : Nat
  hour : Nat
  minute : Nat
  second : Nat
  ms : Nat
deriving DecidableEq, Repr

/-- Last decimal digit of a number, as a character. -/
def digitOf (n : Nat) : Char :=
  Nat.digitChar (n % 10)

/-- Two-digit zero-padded decimal field of `toISOString`. -/
def pad2Chars (n : Nat) : List Char :=
  [digitOf (n / 10), digitOf n]

/-- Three-digit zero-padded decimal field of `toISOString`. -/
def pad3Chars (n : Nat) : List Char :=
  [digitOf (n / 100), digitOf (n / 10), digitOf n]

/-- Four-digit zero-padded decimal field of `toISOString`. -/
def pad4Chars (n : Nat) : List Char :=
  [digitOf (n / 1000), digitOf (n / 100), digitOf (n / 10), digitOf n]

/-- Characters of `new Date().toISOString()`:
`YYYY-MM-DDTHH:MM:SS.mmmZ`. -/
def jsToISOChars (d : UtcDate) : List Char :=
  pad4Chars d.year ++ ['-'] ++ pad2Chars d.month ++ ['-'] ++ pad2Chars d.day ++
    ['T'] ++ pad2Chars d.hour ++ [':'] ++ pad2Chars d.minute ++ [':'] ++
    pad2Chars d.second ++ ['.'] ++ pad3Chars d.ms ++ ['Z']

/-- The timestamp of line 169: strip every '-' and ':' from the ISO
string, then keep the part before the first '.'. -/
def backupTimestampChars (d : UtcDate) : List Char :=
  ((jsToISOChars d).filter (fun c => !(c == '-' || c == ':'))).takeWhile
    (fun c => c != '.')

/-- String form of the generated timestamp. -/
def backupTimestamp (d : UtcDate) : String :=
  ⟨backupTimestampChars d⟩

/-- Line 170: `outputName.replace(/[/\\]/g, "-")`. -/
def cleanFileName (outputName : String) : String :=
  ⟨outputName.toList.map (fun c => if c = '/' ∨ c = '\\' then '-' else c)⟩

/-- Line 171: append ".sql" unless the cleaned name already ends in it. -/
def sqlFileName (clean : String) : String :=
  if ".sql".toList.isSuffixOf clean.toList then clean else clean ++ ".sql"

/-- Line 172: the artifact filename written to `public/uploads`. -/
def backupFileName (d : UtcDate) (outputName : String) : String :=
  "backup-" ++ backupTimestamp d ++ "-" ++ sqlFileName (cleanFileName outputName)

/-- The artifact filename exactly as claim C5 words it: the requested
output name with path separators removed, inside
`backup-<timestamp>-<sanitized-name>.dump`. -/
def claimedArtifactName (d : UtcDate) (outputName : String) : String :=
  "backup-" ++ backupTimestamp d ++ "-" ++
    ⟨outputName.toList.filter (fun c => !(c == '/' || c == '\\'))⟩ ++ ".dump"

theorem digitOf_isDigit (n : Nat) : (digitOf n).isDigit = true := by
  unfold digitOf
  have h : n % 10 < 10 := Nat.mod_lt _ (by norm_num)
  set k := n % 10 with hk
  interval_cases k <;> decide

theorem digitOf_not_sep (n : Nat) :
    (!(digitOf n == '-' || digitOf n == ':')) = true := by
  unfold digitOf
  have h : n % 10 < 10 := Nat.mod_lt _ (by norm_num)
  set k := n % 10 with hk
  interval_cases k <;> decide

theorem digitOf_not_dot (n : Nat) : (digitOf n != '.') = true := by
  unfold digitOf
  have h : n % 10 < 10 := Nat.mod_lt _ (by norm_num)
  set k := n % 10 with hk
  interval_cases k <;> decide

/-- If every element of the first list keeps the predicate, `takeWhile`
over an append walks through it. -/
theorem takeWhile_append_all {p : Char → Bool} :
    ∀ {l₁ l₂ : List Char}, (∀ c ∈ l₁, p c = true) →
      (l₁ ++ l₂).takeWhile p = l₁ ++ l₂.takeWhile p := by
  intro l₁
  induction l₁ with
  | nil => intro l₂ _; rfl
  | cons c rest ih =>
      intro l₂ h
      have hc := h c (List.mem_cons_self c rest)
      simp only [List.cons_append, List.takeWhile_cons, hc, if_true]
      rw [ih fun x hx => h x (List.mem_cons_of_mem c hx)]

theorem pad2_not_sep (n : Nat) :
    ∀ c ∈ pad2Chars n, (!(c == '-' || c == ':')) = true := by
  intro c hc
  simp only [pad2Chars, List.mem_cons, List.not_mem_nil, or_false] at hc
  rcases hc with h | h <;> (subst h; exact digitOf_not_sep _)

theorem pad3_not_sep (n : Nat) :
    ∀ c ∈ pad3Chars n, (!(c == '-' || c == ':')) = true := by
  intro c hc
  simp only [pad3Chars, List.mem_cons, List.not_mem_nil, or_false] at hc
  rcases hc with h | h | h <;> (subst h; exact digitOf_not_sep _)

theorem pad4_not_sep (n : Nat) :
    ∀ c ∈ pad4Chars n, (!(c == '-' || c == ':')) = true := by
  intro c hc
  simp only [pad4Chars, List.mem_cons, List.not_mem_nil, or_false] at hc
  rcases hc with h | h | h | h <;> (subst h; exact digitOf_not_sep _)

theorem pad2_not_dot (n : Nat) : ∀ c ∈ pad2Chars n, (c != '.') = true := by
  intro c hc
  simp only [pad2Chars, List.mem_cons, List.not_mem_nil, or_false] at hc
  rcases hc with h | h <;> (subst h; exact digitOf_not_dot _)

theorem pad4_not_dot (n : Nat) : ∀ c ∈ pad4Chars n, (c != '.') = true := by
  intro c hc
  simp only [pad4Chars, List.mem_cons, List.not_mem_nil, or_false] at hc
  rcases hc with h | h | h | h <;> (subst h; exact digitOf_not_dot _)

/-- The generated timestamp is the 15 characters
`YYYYMMDD` ++ `T` ++ `HHMMSS`. -/
theorem backupTimestampChars_eq (d : UtcDate) :
    backupTimestampChars d =
      (pad4Chars d.year ++ pad2Chars d.month ++ pad2Chars d.day) ++ 'T' ::
        (pad2Chars d.hour ++ pad2Chars d.minute ++ pad2Chars d.second) := by
  unfold backupTimestampChars jsToISOChars
  rw [List.filter_append, List.filter_append, List.filter_append,
    List.filter_append, List.filter_append, List.filter_append,
    List.filter_append, List.filter_append, List.filter_append,
    List.filter_append, List.filter_append, List.filter_append,
    List.filter_append]
  rw [List.filter_eq_self.mpr (pad4_not_sep d.year),
    List.filter_eq_self.mpr (pad2_not_sep d.month),
    List.filter_eq_self.mpr (pad2_not_sep d.day),
    List.filter_eq_self.mpr (pad2_not_sep d.hour),
    List.filter_eq_self.mpr (pad2_not_sep d.minute),
    List.filter_eq_self.mpr (pad2_not_sep d.second),
    List.filter_eq_self.mpr (pad3_not_sep d.ms)]
  rw [show List.filter (fun c => !(c == '-' || c == ':')) ['-'] = [] from by decide]
  rw [show List.filter (fun c => !(c == '-' || c == ':')) [':'] = [] from by decide]
  rw [show List.filter (fun c => !(c == '-' || c == ':')) ['T'] = ['T'] from by decide]
  rw [show List.filter (fun c => !(c == '-' || c == ':')) ['.'] = ['.'] from by decide]
  rw [show List.filter (fun c => !(c == '-' || c == ':')) ['Z'] = ['Z'] from by decide]
  simp only [List.append_nil, List.nil_append, List.append_assoc]
  rw [takeWhile_append_all (pad4_not_dot d.year),
    takeWhile_append_all (pad2_not_dot d.month),
    takeWhile_append_all (pad2_not_dot d.day)]
  rw [show ((['T'] : List Char) ++
      (pad2Chars d.hour ++ (pad2Chars d.minute ++ (pad2Chars d.second ++
        (['.'] ++ (pad3Chars d.ms ++ ['Z'])))))) = 'T' ::
      (pad2Chars d.hour ++ (pad2Chars d.minute ++ (pad2Chars d.second ++
        (['.'] ++ (pad3Chars d.ms ++ ['Z']))))) from rfl]
  rw [List.takeWhile_cons]
  rw [if_pos (show (('T' : Char) != '.') = true from by decide)]
  rw [takeWhile_append_all (pad2_not_dot d.hour),
    takeWhile_append_all (pad2_not_dot d.minute),
    takeWhile_append_all (pad2_not_dot d.second)]
  rw [show ((['.'] : List Char) ++ (pad3Chars d.ms ++ ['Z'])) = '.' ::
      (pad3Chars d.ms ++ ['Z']) from rfl]
  rw [List.takeWhile_cons]
  rw [if_neg (show ¬(('.' : Char) != '.') = true from by decide)]
  simp [List.append_assoc]

/-- A sample clock reading used for concrete evaluations. -/
def sampleDate : UtcDate :=
  { year := 2025, month := 1, day := 2, hour := 3, minute := 4, second := 5, ms := 6 }

/-- Claim C5 as stated is false: at output name "a/b" the artifact is
`backup-20250102T030405-a-b.sql` — separators are replaced by '-', not
removed, and the extension is `.sql`, not `.dump` — while the claimed
form is `backup-20250102T030405-ab.dump`. -/
theorem backupFileName_ne_claimed :
    backupFileName sampleDate "a/b" = "backup-20250102T030405-a-b.sql" ∧
    claimedArtifactName sampleDate "a/b" = "backup-20250102T030405-ab.dump" ∧
    backupFileName sampleDate "a/b" ≠ claimedArtifactName sampleDate "a/b" := by
  refine ⟨by decide, by decide, by decide⟩

theorem cleanFileName_all_no_sep (outputName : String) :
    (cleanFileName outputName).data.all (fun c => !(c == '/' || c == '\\')) = true := by
  rw [List.all_eq_true]
  intro c hc
  obtain ⟨a, _, rfl⟩ := List.mem_map.mp hc
  by_cases ha : a = '/' ∨ a = '\\'
  · simp [ha]
  · push_neg at ha
    simp [if_neg, ha.1, ha.2]

/-- Claim C5, amended to the code's behaviour: the artifact file is named
`backup-<timestamp>-<s>` where `<s>` is the requested output name with
every path separator replaced by '-' and ".sql" appended unless already
present, and `<timestamp>` is a UTC timestamp of the exact form
`YYYYMMDDTHHMMSS` (8 digits, 'T', 6 digits) derived from the current
time. -/
theorem backupFileName_spec :
    ∀ (d : UtcDate) (outputName : String),
      (∃ s : List Char,
        (backupFileName d outputName).data =
          "backup-".data ++ backupTimestampChars d ++ '-' :: s ∧
        s.all (fun c => !(c == '/' || c == '\\')) = true ∧
        ".sql".data.isSuffixOf s = true) ∧
      (backupTimestampChars d).length = 15 ∧
      (∃ ymd hms : List Char,
        backupTimestampChars d = ymd ++ 'T' :: hms ∧ ymd.length = 8 ∧
        hms.length = 6 ∧ (ymd ++ hms).all Char.isDigit = true) := by
  intro d outputName
  refine ⟨⟨(sqlFileName (cleanFileName outputName)).data, ?_, ?_, ?_⟩, ?_, ?_⟩
  · show (backupFileName d outputName).data = _
    simp only [backupFileName, backupTimestamp, String.data_append]
    simp [List.append_assoc]
  · unfold sqlFileName
    by_cases h : ".sql".toList.isSuffixOf (cleanFileName outputName).toList = true
    · rw [if_pos h]
      exact cleanFileName_all_no_sep outputName
    · rw [if_neg h]
      rw [String.data_append, List.all_append]
      rw [cleanFileName_all_no_sep outputName]
      decide
  · unfold sqlFileName
    by_cases h : ".sql".toList.isSuffixOf (cleanFileName outputName).toList = true
    · rw [if_pos h]
      exact h
    · rw [if_neg h]
      rw [String.data_append]
      exact List.isSuffixOf_iff_suffix.mpr (List.suffix_append _ _)
  · rw [backupTimestampChars_eq]
    simp [pad4Chars, pad2Chars]
  · refine ⟨pad4Chars d.year ++ pad2Chars d.month ++ pad2Chars d.day,
      pad2Chars d.hour ++ pad2Chars d.minute ++ pad2Chars d.second,
      backupTimestampChars_eq d, by simp [pad4Chars, pad2Chars],
      by simp [pad2Chars], ?_⟩
    simp [List.all_append, pad4Chars, pad2Chars, digitOf_isDigit]

/-! ## Connection probe, size estimator and orchestrator
(src/unnamed/part_008, lines 279-472)

The effectful collaborators (the probe query, the two metadata queries,
the dump subprocess, the artifact stat and the upload) are abstracted as
oracles recorded in a `DbEnv`; promise settlement times are recorded as
durations and compared with the race timer.  Progress callbacks are
recorded as the list of emitted `percent` values (the message strings of
the intermediate events play no role in any claim and are elided). -/

/-- Result record of `testDatabaseConnection`. -/
structure ConnTest where
  success : Bool
  message : String
deriving DecidableEq, Repr

/-- The probe pool's fixed `connectionTimeoutMillis` (line 289). -/
def connectionTimeoutMillis : ℕ := 5000

/-- Function `testDatabaseConnection` (lines 279-309): one `SELECT 1`
attempt, abstracted as an oracle; every thrown error is caught and turned
into a `success: false` record, so the caller always receives a record
and never an exception. -/
def testDatabaseConnection (probe : Except String Unit) : ConnTest :=
  match probe with
  | .ok _ => { success := true, message := "Connection successful" }
  | .error m => { success := false, message := "Connection failed: " ++ m }

/-- Function `checkDatabaseSize` (lines 318-370): the size and catalog
queries, abstracted as one oracle; any failure is caught and the default
`{sizeBytes: 0, tablesCount: 0}` returned. -/
def checkDatabaseSize (size : Except String (ℕ × ℕ)) : ℕ × ℕ :=
  match size with
  | .ok st => st
  | .error _ => (0, 0)

/-- Environment of one `backupAndUploadDatabase` run: outcomes of its
effectful collaborators, and the settlement time of the two raced
promises in milliseconds. -/
structure DbEnv where
  probe : Except String Unit
  size : Except String (ℕ × ℕ)
  dump : Except String String
  dumpDurationMs : ℕ
  fileSize : ℕ
  upload : Except String (String × String)
  uploadDurationMs : ℕ

/-- What one orchestrator run produces: the `percent` values passed to
`onProgress`, in order, and the value returned or error thrown. -/
structure RunResult where
  progress : List ℕ
  result : Except String (String × String)
deriving DecidableEq, Repr

/-- Function `backupAndUploadDatabase` (lines 372-472): probe, estimate,
compute the budget, race the dump against it, verify the artifact, race
the upload against the same budget.  A race is lost when the operation's
settlement time exceeds the timer (`Promise.race` with a `setTimeout`
rejection at `timeoutMs`). -/
def backupAndUploadDatabase (env : DbEnv) : RunResult :=
  let conn := testDatabaseConnection env.probe
  if !conn.success then
    { progress := [2]
      result := .error ("Database connection test failed: " ++ conn.message) }
  else
    let st := checkDatabaseSize env.size
    let estMin := estimatedMinutes st.1
    let tMs := timeoutMs st.1
    if tMs < env.dumpDurationMs then
      { progress := [2, 5, 10]
        result := .error ("Database backup operation timed out after " ++
          toString estMin ++ " minutes") }
    else
      match env.dump with
      | .error m => { progress := [2, 5, 10], result := .error m }
      | .ok _fname =>
          if env.fileSize = 0 then
            { progress := [2, 5, 10, 50]
              result := .error
                "Backup file is empty, possibly a failed backup operation" }
          else if tMs < env.uploadDurationMs then
            { progress := [2, 5, 10, 50, 60, 70]
              result := .error "Cloud storage upload operation timed out" }
          else
            match env.upload with
            | .error m =>
                { progress := [2, 5, 10, 50, 60, 70], result := .error m }
            | .ok pu =>
                { progress := [2, 5, 10, 50, 60, 70, 100], result := .ok pu }

/-- The race timer of a run, derived from the size estimate. -/
def dbTimeoutMs (env : DbEnv) : ℕ :=
  timeoutMs (checkDatabaseSize env.size).1

/-- Claim C9: the connection probe runs one minimal live query under a
fixed 5-second timeout and always returns a `{success, message}` record
without throwing; when it reports failure the orchestrator fails the
request before any dump attempt: only the percent-2 event is emitted,
and the outcome does not depend on the dump oracle at all. -/
theorem connection_probe_spec :
    connectionTimeoutMillis = 5000 ∧
    testDatabaseConnection (.ok ()) =
      { success := true, message := "Connection successful" } ∧
    (∀ m, testDatabaseConnection (.error m) =
      { success := false, message := "Connection failed: " ++ m }) ∧
    (∀ (env : DbEnv) (m : String),
      backupAndUploadDatabase { env with probe := .error m } =
        { progress := [2]
          result := .error
            ("Database connection test failed: Connection failed: " ++ m) }) ∧
    (∀ (env : DbEnv) (m : String) (d : Except String String) (dd : ℕ),
      backupAndUploadDatabase
          { env with probe := .error m, dump := d, dumpDurationMs := dd } =
        backupAndUploadDatabase { env with probe := .error m }) := by
  refine ⟨rfl, rfl, fun m => rfl, fun env m => rfl, fun env m d dd => rfl⟩

/-- Claim C8: the size estimator returns the queried pair on success and
`{0,0}` on any failure, never throwing; an estimation failure leaves the
run exactly as if the database had size zero — the pipeline proceeds
with the minimum 20-minute budget and is never aborted by it. -/
theorem size_estimator_spec :
    (∀ st : ℕ × ℕ, checkDatabaseSize (.ok st) = st) ∧
    (∀ m, checkDatabaseSize (.error m) = (0, 0)) ∧
    (∀ (env : DbEnv) (m : String),
      backupAndUploadDatabase { env with size := .error m } =
        backupAndUploadDatabase { env with size := .ok (0, 0) }) ∧
    (∀ m, dbTimeoutMs
        { probe := .ok (), size := .error m, dump := .ok "f"
          dumpDurationMs := 0, fileSize := 1, upload := .ok ("p", "u")
          uploadDurationMs := 0 } = 20 * 60 * 1000) := by
  refine ⟨fun st => rfl, fun m => rfl, fun env m => rfl, fun m => ?_⟩
  show timeoutMs (checkDatabaseSize (Except.error m)).1 = 20 * 60 * 1000
  rw [show checkDatabaseSize (Except.error m) = (0, 0) from rfl]
  decide

/-- Claim C3: the computed budget governs both the dump and the upload
step; each is raced independently against the full budget (so the dump
may settle at the full budget and the upload still gets the whole budget
afterwards), and losing a race synthesizes a timed-out error. -/
theorem race_budget_spec :
    ∀ env : DbEnv, env.probe = .ok () →
      (dbTimeoutMs env < env.dumpDurationMs →
        backupAndUploadDatabase env =
          { progress := [2, 5, 10]
            result := .error ("Database backup operation timed out after " ++
              toString (estimatedMinutes (checkDatabaseSize env.size).1) ++
              " minutes") }) ∧
      (env.dumpDurationMs ≤ dbTimeoutMs env →
        env.uploadDurationMs ≤ dbTimeoutMs env →
        ∀ f pu, env.dump = .ok f → env.fileSize ≠ 0 → env.upload = .ok pu →
          backupAndUploadDatabase env =
            { progress := [2, 5, 10, 50, 60, 70, 100], result := .ok pu }) ∧
      (env.dumpDurationMs ≤ dbTimeoutMs env →
        dbTimeoutMs env < env.uploadDurationMs →
        ∀ f, env.dump = .ok f → env.fileSize ≠ 0 →
          backupAndUploadDatabase env =
            { progress := [2, 5, 10, 50, 60, 70]
              result := .error "Cloud storage upload operation timed out" }) := by
  intro env hprobe
  have hconn : testDatabaseConnection env.probe =
      { success := true, message := "Connection successful" } := by
    rw [hprobe]
    rfl
  refine ⟨?_, ?_, ?_⟩
  · intro hlt
    simp only [dbTimeoutMs] at hlt
    simp only [backupAndUploadDatabase, hconn, Bool.not_true, Bool.false_eq_true,
      if_false, if_pos hlt]
  · intro hd hu f pu hdump hfs hup
    simp only [dbTimeoutMs] at hd hu
    simp only [backupAndUploadDatabase, hconn, Bool.not_true, Bool.false_eq_true,
      if_false, hdump, hup, if_neg (not_lt.mpr hd), if_neg (not_lt.mpr hu),
      if_neg hfs]
  · intro hd hu f hdump hfs
    simp only [dbTimeoutMs] at hd hu
    simp only [backupAndUploadDatabase, hconn, Bool.not_true, Bool.false_eq_true,
      if_false, hdump, if_neg (not_lt.mpr hd), if_pos hu, if_neg hfs]

/-- Witness for `race_budget_spec`: a run whose dump and upload each
settle at exactly the full 20-minute budget still succeeds. -/
theorem race_budget_spec_witness :
    backupAndUploadDatabase
        { probe := .ok (), size := .ok (0, 0), dump := .ok "f"
          dumpDurationMs := 1200000, fileSize := 1
          upload := .ok ("cloudflare", "https://cdn.example/f")
          uploadDurationMs := 1200000 } =
      { progress := [2, 5, 10, 50, 60, 70, 100]
        result := .ok ("cloudflare", "https://cdn.example/f") } :=
  ((race_budget_spec _ rfl).2.1 (by decide) (by decide) "f"
    ("cloudflare", "https://cdn.example/f") rfl (by decide) rfl)

/-! ## Database-backup API router (src/unnamed/part_003, lines 201-370)

The route handler picks streaming mode from the request, runs the
pipeline and emits either event-stream frames (one initial progress
frame, one frame per `onProgress` callback, then exactly one `complete`
or `error` frame before `res.end()`) or a single JSON response (201 on
success, 504 for timed-out failures, otherwise `next(error)` into the
app's error middleware, which sends one error response).  A request that
fails schema validation reaches `next(error)` before anything is
written. -/

/-- One message sent to the client over the response. -/
inductive Emit
  | frameProgress (percent : ℕ)
  | frameComplete (name provider url : String)
  | frameError (message details original : String)
  | jsonCreated (name provider url : String)
  | jsonTimeout (message details original : String)
  | nextError (message : String)
deriving DecidableEq, Repr

/-- Whether a message is a terminal outcome (everything except a
progress frame). -/
def isTerminalEmit : Emit → Bool
  | .frameProgress _ => false
  | _ => true

/-- User-facing message substituted for timed-out failures
(lines 278-283 and 336-347). -/
def timedOutMessage : String :=
  "The database backup operation timed out. This may be due to the database size or server load."

/-- Advice string attached to timed-out failures. -/
def timedOutDetails : String :=
  "Consider breaking up your backup into smaller chunks or running during off-peak hours."

/-- The route handler: `streaming` is the mode switch of line 206,
`parsed` tells whether the Zod schema accepted the body, `backupName`
is `name || generateBackupName(connectionUrl)`, and `env` drives the
pipeline. -/
def apiBackupHandler (streaming parsed : Bool) (backupName : String)
    (env : DbEnv) : List Emit :=
  if !parsed then
    [.nextError "Invalid backup data"]
  else
    let run := backupAndUploadDatabase env
    if streaming then
      .frameProgress 0 :: run.progress.map .frameProgress ++
        (match run.result with
          | .ok (provider, url) => [.frameComplete backupName provider url]
          | .error m =>
              if strContains m "timed out" = true then
                [.frameError timedOutMessage timedOutDetails m]
              else
                [.frameError m "" m])
    else
      match run.result with
      | .ok (provider, url) => [.jsonCreated backupName provider url]
      | .error m =>
          if strContains m "timed out" = true then
            [.jsonTimeout timedOutMessage timedOutDetails m]
          else
            [.nextError m]

/-- Claim C7: in both modes every request gets exactly one terminal
outcome, preceded by zero or more progress frames and followed by
nothing. -/
theorem one_terminal_outcome (streaming parsed : Bool) (backupName : String)
    (env : DbEnv) :
    ∃ (pre : List Emit) (t : Emit),
      apiBackupHandler streaming parsed backupName env = pre ++ [t] ∧
      isTerminalEmit t = true ∧
      pre.all (fun e => !isTerminalEmit e) = true := by
  unfold apiBackupHandler
  cases parsed with
  | false => exact ⟨[], .nextError "Invalid backup data", rfl, rfl, rfl⟩
  | true =>
      simp only [Bool.not_true, Bool.false_eq_true, if_false]
      have hpre : ∀ l : List ℕ,
          (l.map Emit.frameProgress).all (fun e => !isTerminalEmit e) = true := by
        intro l
        rw [List.all_eq_true]
        intro e he
        obtain ⟨p, _, rfl⟩ := List.mem_map.mp he
        rfl
      cases streaming with
      | true =>
          simp only [if_true]
          cases hres : (backupAndUploadDatabase env).result with
          | ok pu =>
              obtain ⟨provider, url⟩ := pu
              refine ⟨.frameProgress 0 ::
                (backupAndUploadDatabase env).progress.map .frameProgress,
                .frameComplete backupName provider url, ?_, rfl, ?_⟩
              · simp [hres]
              · simp only [List.all_cons, hpre, Bool.and_true]
                rfl
          | error m =>
              by_cases htm : strContains m "timed out" = true
              · refine ⟨.frameProgress 0 ::
                  (backupAndUploadDatabase env).progress.map .frameProgress,
                  .frameError timedOutMessage timedOutDetails m, ?_, rfl, ?_⟩
                · simp [hres, htm]
                · simp only [List.all_cons, hpre, Bool.and_true]
                  rfl
              · refine ⟨.frameProgress 0 ::
                  (backupAndUploadDatabase env).progress.map .frameProgress,
                  .frameError m "" m, ?_, rfl, ?_⟩
                · simp [hres, htm]
                · simp only [List.all_cons, hpre, Bool.and_true]
                  rfl
      | false =>
          simp only [Bool.false_eq_true, if_false]
          cases hres : (backupAndUploadDatabase env).result with
          | ok pu =>
              obtain ⟨provider, url⟩ := pu
              exact ⟨[], .jsonCreated backupName provider url, by simp [hres],
                rfl, rfl⟩
          | error m =>
              by_cases htm : strContains m "timed out" = true
              · exact ⟨[], .jsonTimeout timedOutMessage timedOutDetails m,
                  by simp [hres, htm], rfl, rfl⟩
              · exact ⟨[], .nextError m, by simp [hres, htm], rfl, rfl⟩

/-! ## Streaming client (public/js/backup-client.js, src/unnamed/part_000)

`_startStreamingBackup` accumulates decoded chunks in `buffer`, splits on
the frame delimiter, keeps the last piece as the new buffer and
dispatches every complete piece through `_parseEvent`.  Note that the
source file is plain JavaScript, so the split separators it writes —
`'\\n\\n'` in the read loop (line 94) and `'\\n'` in `_parseEvent`
(line 163) — are the two- and four-character sequences containing
literal backslashes, not newline characters.  `JSON.parse` is modelled
as yielding the raw payload string; every payload appearing in the
theorems below is valid JSON.  All inputs considered are ASCII, so
`trim` is modelled over the ASCII whitespace characters. -/

/-- JavaScript whitespace as far as the ASCII inputs go. -/
def isJsSpace (c : Char) : Bool :=
  c == ' ' || c == '\t' || c == '\n' || c == '\r' || c == '\x0b' || c == '\x0c'

/-- JavaScript `String.prototype.trim`. -/
def jsTrim (cs : List Char) : List Char :=
  ((cs.dropWhile isJsSpace).reverse.dropWhile isJsSpace).reverse

/-- Fuelled worker for `jsSplit`; fuel bounds the number of scan steps,
each of which consumes at least one character. -/
def splitOnFuel (sep : List Char) : Nat → List Char → List Char → List (List Char)
  | _, [], acc => [acc.reverse]
  | 0, s, acc => [acc.reverse ++ s]
  | fuel + 1, c :: rest, acc =>
      if sep.isPrefixOf (c :: rest) then
        acc.reverse :: splitOnFuel sep fuel (List.drop sep.length (c :: rest)) []
      else
        splitOnFuel sep fuel rest (c :: acc)

/-- JavaScript `String.prototype.split` with a string separator:
non-overlapping, leftmost-first matches. -/
def jsSplit (s sep : List Char) : List (List Char) :=
  if sep.isEmpty then s.map (fun c => [c])
  else splitOnFuel sep (s.length + 1) s []

/-- The separator `_parseEvent` splits lines on: the source writes
`'\\n'`, the two characters backslash and n. -/
def literalNewline : List Char := ['\\', 'n']

/-- The frame delimiter the read loop splits on: the source writes
`'\\n\\n'`, four characters, not two newlines. -/
def frameDelimiter : List Char := ['\\', 'n', '\\', 'n']

/-- Field-collection loop of `_parseEvent` (lines 166-180): skip blank
lines and lines without a colon, split at the first colon, trim both
parts, and record the last `event` and `data` values seen. -/
def parseEventLoop :
    List (List Char) → Option (List Char) → Option (List Char) →
      Option (List Char) × Option (List Char)
  | [], ev, dat => (ev, dat)
  | line :: rest, ev, dat =>
      if (jsTrim line).isEmpty then parseEventLoop rest ev dat
      else
        match line.findIdx? (fun c => c == ':') with
        | none => parseEventLoop rest ev dat
        | some i =>
            let field := jsTrim (line.take i)
            let value := jsTrim (line.drop (i + 1))
            if field = "event".toList then parseEventLoop rest (some value) dat
            else if field = "data".toList then parseEventLoop rest ev (some value)
            else parseEventLoop rest ev dat

/-- Method `_parseEvent` (lines 162-184): split on the literal `\n`
separator, collect `event` and `data`, and return null when either is
missing or empty (JavaScript falsiness). -/
def parseEvent (eventText : List Char) : Option (List Char × List Char) :=
  match parseEventLoop (jsSplit eventText literalNewline) none none with
  | (some ev, some dat) =>
      if ev.isEmpty || dat.isEmpty then none else some (ev, dat)
  | _ => none

/-- A callback invocation observed on the client. -/
inductive CEvent
  | progressCb (data : List Char)
  | completeCb (data : List Char)
  | errorCb (data : List Char)
deriving DecidableEq, Repr

/-- Client read-loop state: the accumulating buffer, the callbacks
invoked so far (in order) and whether the promise has settled (after
which reading stops). -/
structure ClientState where
  buffer : List Char
  callbacks : List CEvent
  settled : Bool
deriving DecidableEq, Repr

/-- Frame-dispatch loop over the complete pieces of one chunk
(lines 97-131): a terminal frame invokes its callback, settles the
promise and returns out of the read loop, dropping the remaining
pieces. -/
def dispatchPieces : List (List Char) → ClientState → ClientState
  | [], st => st
  | piece :: rest, st =>
      if st.settled then st
      else if (jsTrim piece).isEmpty then dispatchPieces rest st
      else
        match parseEvent piece with
        | none => dispatchPieces rest st
        | some (ev, dat) =>
            if ev = "progress".toList then
              dispatchPieces rest
                { st with callbacks := st.callbacks ++ [.progressCb dat] }
            else if ev = "complete".toList then
              { st with
                callbacks := st.callbacks ++ [.completeCb dat]
                settled := true }
            else if ev = "error".toList then
              { st with
                callbacks := st.callbacks ++ [.errorCb dat]
                settled := true }
            else dispatchPieces rest st

/-- One `readChunk` iteration with a fresh chunk (lines 90-134): append
to the buffer, split on the frame delimiter, keep the last piece as the
new buffer, dispatch the rest. -/
def processChunk (st : ClientState) (chunk : List Char) : ClientState :=
  if st.settled then st
  else
    let pieces := jsSplit (st.buffer ++ chunk) frameDelimiter
    dispatchPieces pieces.dropLast
      { st with buffer := (pieces.getLast?).getD [] }

/-- Stream-end handling (lines 74-88): parse the remaining buffer and
dispatch it only when it is a `complete` frame. -/
def processDone (st : ClientState) : ClientState :=
  if st.settled then st
  else
    match parseEvent st.buffer with
    | some (ev, dat) =>
        if ev = "complete".toList then
          { st with
            callbacks := st.callbacks ++ [.completeCb dat]
            settled := true }
        else st
    | none => st

/-- The read loop over a whole chunk sequence followed by stream end. -/
def runClient (chunks : List (List Char)) : ClientState :=
  processDone (chunks.foldl processChunk
    { buffer := [], callbacks := [], settled := false })

/-- The wire frame of the claim, with real newline characters, exactly
as the server's `res.write` calls produce it. -/
def progressFrame : List Char :=
  "event: progress\ndata: \x7b\"percent\":10\x7d\n\n".toList

/-- Claim C2 (refuted by evaluation): fed the exact progress frame the
server sends — whole, or one byte at a time — the client dispatches no
callback at all: the delimiter it splits on is the literal four-character
sequence backslash-n-backslash-n, which never occurs in the input,
whereas the real two-newline delimiter does. -/
theorem streaming_client_drops_progress :
    runClient [progressFrame] =
      { buffer := progressFrame, callbacks := [], settled := false } ∧
    runClient (progressFrame.map (fun c => [c])) =
      { buffer := progressFrame, callbacks := [], settled := false } ∧
    listContains progressFrame frameDelimiter = false ∧
    listContains progressFrame "\n\n".toList = true := by
  refine ⟨by decide, by decide, by decide, by decide⟩

/-! ## Object-store upload (src/src/lib/cloud-storage/storage-upload.ts)

`uploadFileBuffer` strips one leading '/' from the destination name,
deletes every character outside `[a-zA-Z0-9-_.]` to build `path`, and
sends a `PutObjectCommand` whose `Key` is
`` `${env.CLOUDFLARE_CDN_PROJECT_NAME}/${path}` `` in the caller's
bucket; the response echoes the storage descriptor's provider and
computes `storageUrl`/`publicUrl` by applying the URL helpers to the
slash-stripped (but otherwise unsanitized) destination name.  The two
helpers live in `src/lib/cloud-storage/helper.ts`, which is not among
the shipped sources, so they are abstract parameters here; the buffer,
content type and cache headers play no role in the claim and are
elided. -/

/-- The storage descriptor fields (`ICloudStorage`). -/
structure ICloudStorage where
  provider : String
  bucket : String
  region : String
  accessKey : String
  secretKey : String
  endpoint : String
  baseUrl : Option String
  basePath : Option String
deriving DecidableEq, Repr

/-- Characters the key sanitizer keeps: `[a-zA-Z0-9-_.]`. -/
def keyAllowedChar (c : Char) : Bool :=
  ('a' ≤ c && c ≤ 'z') || ('A' ≤ c && c ≤ 'Z') || ('0' ≤ c && c ≤ '9') ||
    c == '-' || c == '_' || c == '.'

/-- Line 72: drop exactly one leading '/'. -/
def stripLeadingSlash : List Char → List Char
  | '/' :: rest => rest
  | s => s

/-- The parameters of the `PutObjectCommand` the claim inspects. -/
structure UploadCall where
  bucket : String
  key : List Char
deriving DecidableEq, Repr

/-- The record `uploadFileBuffer` returns. -/
structure UploadResponse where
  provider : String
  path : List Char
  storageUrl : String
  publicUrl : String

/-- Function `uploadFileBuffer` (lines 57-126), as the pair of the
`PutObjectCommand` parameters sent and the response returned.
`projectName` is `env.CLOUDFLARE_CDN_PROJECT_NAME`; `urlOrigin` and
`urlPublic` are `getUploadFileOriginEndpointUrl` and
`getUploadFilePublicUrl`. -/
def uploadFileBuffer (projectName : String)
    (urlOrigin urlPublic : ICloudStorage → List Char → String)
    (storage : ICloudStorage) (destFileName : List Char) :
    UploadCall × UploadResponse :=
  let dest := stripLeadingSlash destFileName
  let path := dest.filter keyAllowedChar
  ({ bucket := storage.bucket
     key := projectName.toList ++ '/' :: path },
   { provider := storage.provider
     path := path
     storageUrl := urlOrigin storage dest
     publicUrl := urlPublic storage dest })

/-- Claim C10: the object key written is the server's project-name
environment value, '/', and the destination name with one leading '/'
removed and every character outside `[a-zA-Z0-9-_.]` deleted; the key
does not depend on the caller's descriptor (basePath, provider or any
other field) while the bucket does; the returned URLs are computed by
the helpers from the slash-stripped destination name without the
character deletion — and there are destination names for which that
name differs from the key's sanitized path, so the reported URLs need
not address the key actually written. -/
theorem uploadFileBuffer_key_spec :
    (∀ (projectName : String)
       (urlOrigin urlPublic : ICloudStorage → List Char → String)
       (storage : ICloudStorage) (dest : List Char),
      (uploadFileBuffer projectName urlOrigin urlPublic storage dest).1.key =
        projectName.toList ++ '/' ::
          (stripLeadingSlash dest).filter keyAllowedChar ∧
      (uploadFileBuffer projectName urlOrigin urlPublic storage dest).1.bucket =
        storage.bucket ∧
      (uploadFileBuffer projectName urlOrigin urlPublic storage dest).2.storageUrl =
        urlOrigin storage (stripLeadingSlash dest) ∧
      (uploadFileBuffer projectName urlOrigin urlPublic storage dest).2.publicUrl =
        urlPublic storage (stripLeadingSlash dest)) ∧
    (∀ (projectName : String)
       (urlOrigin urlPublic : ICloudStorage → List Char → String)
       (s₁ s₂ : ICloudStorage) (dest : List Char),
      (uploadFileBuffer projectName urlOrigin urlPublic s₁ dest).1.key =
        (uploadFileBuffer projectName urlOrigin urlPublic s₂ dest).1.key) ∧
    (stripLeadingSlash "my backup.sql".toList).filter keyAllowedChar ≠
      stripLeadingSlash "my backup.sql".toList := by
  refine ⟨fun p uo up storage dest => ⟨rfl, rfl, rfl, rfl⟩,
    fun p uo up s₁ s₂ dest => rfl, by decide⟩

end SaveDb
